import Mathlib

/-!
Verification of the apitrace capture/replay protocol.

The development shallowly embeds the trace-stream serialization of the
recorder add-on (api_trace_addon.cpp) and the replayer (play_frame and its
handlers), the handle registry of the replayer, and the shared
calc_texture_size helper. The trace stream is modelled as a list of byte
values (Nat, each written value reduced modulo 256 by the little-endian
encoder); recorder callbacks become functions producing byte lists, replayer
handlers become functions consuming byte lists and producing the sequence of
live device calls they issue, and the global handle maps become total
functions with the operator-bracket default of 0 for absent keys.
-/

namespace ApiTrace

/-- Little-endian byte encoding of a value into k bytes, mirroring what
fwrite of a k-byte scalar produces on a little-endian host. -/
def leBytes : Nat → Nat → List Nat
  | 0, _ => []
  | k + 1, v => v % 256 :: leBytes k (v / 256)

/-- Value of a little-endian byte list. -/
def fromLE : List Nat → Nat
  | [] => 0
  | b :: bs => b + 256 * fromLE bs

/-- Recorder write of a 64-bit scalar (handles, offsets, sizes). -/
def wU64 (v : Nat) : List Nat := leBytes 8 v

/-- Recorder write of a 32-bit scalar (counts, indices, 4-byte enums). -/
def wU32 (v : Nat) : List Nat := leBytes 4 v

/-- Recorder write of a single byte (uint8_t fields). -/
def wU8 (v : Nat) : List Nat := leBytes 1 v

/-- Recorder write of a C++ bool (one byte, 0 or 1). -/
def wBool (b : Bool) : List Nat := [if b then 1 else 0]

/-- Replayer read of n raw bytes from the stream; none models the failed
fread of trace_data_read when the stream is exhausted mid-field. -/
def rdBytes : Nat → List Nat → Option (List Nat × List Nat)
  | 0, s => some ([], s)
  | _ + 1, [] => none
  | n + 1, b :: s =>
    match rdBytes n s with
    | some (bs, r) => some (b :: bs, r)
    | none => none

/-- Replayer read of a 64-bit scalar. -/
def rdU64 (s : List Nat) : Option (Nat × List Nat) :=
  (rdBytes 8 s).map fun p => (fromLE p.1, p.2)

/-- Replayer read of a 32-bit scalar (also used for 4-byte enum fields). -/
def rdU32 (s : List Nat) : Option (Nat × List Nat) :=
  (rdBytes 4 s).map fun p => (fromLE p.1, p.2)

/-- Replayer read of a single byte. -/
def rdU8 (s : List Nat) : Option (Nat × List Nat) :=
  (rdBytes 1 s).map fun p => (fromLE p.1, p.2)

/-- Replayer read of a C++ bool: one byte, nonzero meaning true. -/
def rdBool (s : List Nat) : Option (Bool × List Nat) :=
  (rdBytes 1 s).map fun p => (decide (fromLE p.1 ≠ 0), p.2)

/-- Fields of a clear_depth_stencil_view event as the replayer decodes them:
the view handle, an optional depth value (kept as its raw 4 float bytes) and
an optional stencil byte, each guarded by a presence flag in the stream. -/
structure ClearDSVFields where
  dsv : Nat
  depth : Option (List Nat)
  stencil : Option Nat
  deriving DecidableEq

/-- Byte sequence the recorder writes for a clear_depth_stencil_view event
payload (on_clear_depth_stencil_view): the resource_view handle, then the
depth value as 4 raw float bytes (the recorder substitutes 0.0f for a null
pointer), then the stencil byte. No presence flags are written. -/
def encodeClearDepthStencilView (dsv : Nat) (depthBytes : List Nat) (stencil : Nat) : List Nat :=
  wU64 dsv ++ depthBytes ++ wU8 stencil

/-- Replayer decode of a clear_depth_stencil_view event payload
(play_clear_depth_stencil_view): view handle, then a has_depth bool with a
conditional 4-byte float, then a has_stencil bool with a conditional byte.
Returns the decoded fields and the unconsumed remainder of the stream. -/
def decodeClearDepthStencilView (s : List Nat) : Option (ClearDSVFields × List Nat) := do
  let (dsv, s) ← rdU64 s
  let (hasDepth, s) ← rdBool s
  let (depth, s) ←
    if hasDepth then (rdBytes 4 s).map fun p => ((some p.1 : Option (List Nat)), p.2)
    else some ((none : Option (List Nat)), s)
  let (hasStencil, s) ← rdBool s
  let (stencil, s) ←
    if hasStencil then (rdU8 s).map fun p => ((some p.1 : Option Nat), p.2)
    else some ((none : Option Nat), s)
  return ({ dsv := dsv, depth := depth, stencil := stencil }, s)

/-- Value of map_access::read_only; the other map_access values (write_only 2,
read_write 3, write_discard 4) are only ever compared against this one, per
the external reshade.hpp enum. -/
def mapAccessReadOnly : Nat := 1

/-- Value of device_api::opengl from the external reshade.hpp enum. -/
def apiOpenGL : Nat := 0x10000

/-- The replayer special-cases the OpenGL default framebuffer sentinel:
handles whose top bits are GL_FRAMEBUFFER_DEFAULT (0x8218), tested as
handle >> 40 in play_init_resource, play_destroy_resource and
play_init_resource_view. -/
def glDefaultFB (api h : Nat) : Bool := api == apiOpenGL && h / 2 ^ 40 == 0x8218

/-- Texture fields of resource_desc used by calc_texture_size. -/
structure TextureDesc where
  width : Nat
  height : Nat
  depthOrLayers : Nat
  levels : Nat
  format : Nat
  deriving DecidableEq

/-- resource_type from the external reshade.hpp enum. -/
inductive ResourceType where
  | unknown
  | buffer
  | texture1d
  | texture2d
  | texture3d
  | surface
  deriving DecidableEq

/-- The parts of resource_desc that the traced handlers inspect. -/
structure ResourceDesc where
  rtype : ResourceType
  bufferSize : Nat
  texture : TextureDesc
  deriving DecidableEq

/-- subresource_data: the mapped memory contents together with the row and
slice pitches reported by the graphics runtime. -/
structure SubresourceData where
  dataBytes : List Nat
  rowPitch : Nat
  slicePitch : Nat
  deriving DecidableEq

/-- subresource_box with its six uint32 coordinates. -/
structure SubresourceBox where
  left : Nat
  top : Nat
  front : Nat
  right : Nat
  bottom : Nat
  back : Nat
  deriving DecidableEq

/-- subresource_box::width, uint32 subtraction right - left. -/
def boxWidth (b : SubresourceBox) : Nat := (b.right + 2 ^ 32 - b.left) % 2 ^ 32

/-- subresource_box::height, uint32 subtraction bottom - top. -/
def boxHeight (b : SubresourceBox) : Nat := (b.bottom + 2 ^ 32 - b.top) % 2 ^ 32

/-- subresource_box::depth, uint32 subtraction back - front. -/
def boxDepth (b : SubresourceBox) : Nat := (b.back + 2 ^ 32 - b.front) % 2 ^ 32

/-- calc_texture_size from api_trace_addon.cpp. The helpers format_row_pitch
and format_slice_pitch belong to the external graphics runtime header and are
taken as parameters frp and fsp; every theorem below quantifies over them. -/
def calcTextureSize (frp : Nat → Nat → Nat) (fsp : Nat → Nat → Nat → Nat)
    (desc : ResourceDesc) (subresource : Nat) (data : SubresourceData)
    (box : Option SubresourceBox) : Nat :=
  let level := if desc.texture.levels ≠ 0 then subresource % desc.texture.levels else subresource
  match desc.rtype with
  | ResourceType.texture1d =>
    frp desc.texture.format
      (match box with
        | some b => boxWidth b
        | none => max (desc.texture.width >>> level) 1)
  | ResourceType.texture2d =>
    fsp desc.texture.format data.rowPitch
      (match box with
        | some b => boxHeight b
        | none => max (desc.texture.height >>> level) 1)
  | ResourceType.texture3d =>
    data.slicePitch *
      (match box with
        | some b => boxDepth b
        | none => desc.texture.depthOrLayers)
  | _ => 0

/-- Live device and command-list calls the replayer issues while applying
events; the replayed call sequence each handler produces is recorded as one
of these lists. -/
inductive DevCall where
  | mapBufferRegion (res offset size access : Nat)
  | writeMappedBytes (data : List Nat)
  | unmapBufferRegion (res : Nat)
  | updateBufferRegion (res offset size : Nat) (data : List Nat)
  | mapTextureRegion (res subresource : Nat) (hasBox : Bool) (box : List Nat) (access : Nat)
  | unmapTextureRegion (res subresource : Nat)
  | updateTextureRegion (res subresource : Nat) (hasBox : Bool) (box : List Nat)
      (rowPitch slicePitch : Nat) (data : List Nat)
  | createSampler (desc : Nat)
  | destroySampler (live : Nat)
  | createResource (desc : ResourceDesc)
  | destroyResource (live : Nat)
  | createResourceView (resLive usage : Nat)
  | destroyResourceView (live : Nat)
  | createPipeline (layoutLive : Nat)
  | destroyPipeline (live : Nat)
  | createPipelineLayout (paramCount : Nat)
  | destroyPipelineLayout (live : Nat)
  deriving DecidableEq

/-- Payload bytes on_map_buffer_region writes after the event tag: resource
handle, offset, size (after the UINT64_MAX replacement has been applied) and
access mode. -/
def encodeMapBufferRegion (res offset size access : Nat) : List Nat :=
  wU64 res ++ wU64 offset ++ wU64 size ++ wU32 access

/-- Payload bytes on_unmap_buffer_region writes: resource handle, then the
offset, size and access of the pending mapping record, then, when the access
was not read-only, the size bytes of mapped memory. data stands for those
bytes, so its length equals the recorded size in a well-formed event. -/
def encodeUnmapBufferRegion (res offset size access : Nat) (data : List Nat) : List Nat :=
  wU64 res ++ wU64 offset ++ wU64 size ++ wU32 access ++
    (if access = mapAccessReadOnly then [] else data)

/-- Payload bytes on_update_buffer_region writes: resource handle, offset,
size (after the UINT64_MAX replacement), then size bytes of source data. -/
def encodeUpdateBufferRegion (res offset size : Nat) (data : List Nat) : List Nat :=
  wU64 res ++ wU64 offset ++ wU64 size ++ data

/-- Payload bytes on_unmap_texture_region writes: resource handle,
subresource, has_box flag with optional 24-byte box, access, then, when not
read-only, the calc_texture_size result followed by that many mapped bytes. -/
def encodeUnmapTextureRegion (res subresource : Nat) (hasBox : Bool) (box : List Nat)
    (access size : Nat) (data : List Nat) : List Nat :=
  wU64 res ++ wU32 subresource ++ wBool hasBox ++ (if hasBox then box else []) ++
    wU32 access ++ (if access = mapAccessReadOnly then [] else wU64 size ++ data)

/-- Payload bytes on_update_texture_region writes: resource handle,
subresource, has_box flag with optional 24-byte box, row pitch, slice pitch,
the calc_texture_size result, then that many source bytes. -/
def encodeUpdateTextureRegion (res subresource : Nat) (hasBox : Bool) (box : List Nat)
    (rowPitch slicePitch size : Nat) (data : List Nat) : List Nat :=
  wU64 res ++ wU32 subresource ++ wBool hasBox ++ (if hasBox then box else []) ++
    wU32 rowPitch ++ wU32 slicePitch ++ wU64 size ++ data

/-- play_map_buffer_region: the four fields are read and discarded; no live
call is made and no mapping is established. -/
def playMapBufferRegion (s : List Nat) : Option (List DevCall × List Nat) := do
  let (_, s) ← rdU64 s
  let (_, s) ← rdU64 s
  let (_, s) ← rdU64 s
  let (_, s) ← rdU32 s
  return ([], s)

/-- play_unmap_buffer_region: reads handle, offset, size and access; when the
access was not read-only it reads the size payload bytes, then, if the origin
handle has a live mapping, performs the live map, copies the payload into the
mapped memory and unmaps. resLive is the s_resources lookup with the
operator-bracket default of 0; mapOk tells whether the live map call
succeeds. -/
def playUnmapBufferRegion (resLive : Nat → Nat) (mapOk : Bool) (s : List Nat) :
    Option (List DevCall × List Nat) := do
  let (handle, s) ← rdU64 s
  let (offset, s) ← rdU64 s
  let (size, s) ← rdU64 s
  let (access, s) ← rdU32 s
  if access = mapAccessReadOnly then
    return ([], s)
  else
    let (data, s) ← rdBytes size s
    if resLive handle = 0 then
      return ([], s)
    else if mapOk then
      return ([DevCall.mapBufferRegion (resLive handle) offset size access,
        DevCall.writeMappedBytes data,
        DevCall.unmapBufferRegion (resLive handle)], s)
    else
      return ([DevCall.mapBufferRegion (resLive handle) offset size access], s)

/-- play_update_buffer_region: reads handle, offset, size and the size
payload bytes; skips the live call when the payload is empty or the origin
handle has no live mapping. -/
def playUpdateBufferRegion (resLive : Nat → Nat) (s : List Nat) :
    Option (List DevCall × List Nat) := do
  let (handle, s) ← rdU64 s
  let (offset, s) ← rdU64 s
  let (size, s) ← rdU64 s
  let (data, s) ← rdBytes size s
  if data = [] ∨ resLive handle = 0 then
    return ([], s)
  else
    return ([DevCall.updateBufferRegion (resLive handle) offset size data], s)

/-- play_unmap_texture_region: reads handle, subresource, has_box with the
optional 24-byte box, access; when not read-only it reads a 64-bit size from
the stream and then that many payload bytes, then maps, copies and unmaps the
live resource when one is mapped. -/
def playUnmapTextureRegion (resLive : Nat → Nat) (mapOk : Bool) (s : List Nat) :
    Option (List DevCall × List Nat) := do
  let (handle, s) ← rdU64 s
  let (subresource, s) ← rdU32 s
  let (hasBox, s) ← rdBool s
  let (box, s) ← if hasBox then rdBytes 24 s else some (([] : List Nat), s)
  let (access, s) ← rdU32 s
  if access = mapAccessReadOnly then
    return ([], s)
  else
    let (size, s) ← rdU64 s
    let (data, s) ← rdBytes size s
    if resLive handle = 0 then
      return ([], s)
    else if mapOk then
      return ([DevCall.mapTextureRegion (resLive handle) subresource hasBox box access,
        DevCall.writeMappedBytes data,
        DevCall.unmapTextureRegion (resLive handle) subresource], s)
    else
      return ([DevCall.mapTextureRegion (resLive handle) subresource hasBox box access], s)

/-- play_update_texture_region: reads handle, subresource, has_box with the
optional 24-byte box, row pitch, slice pitch, a 64-bit size from the stream
and then that many payload bytes; skips the live call when the payload is
empty or the origin handle has no live mapping. -/
def playUpdateTextureRegion (resLive : Nat → Nat) (s : List Nat) :
    Option (List DevCall × List Nat) := do
  let (handle, s) ← rdU64 s
  let (subresource, s) ← rdU32 s
  let (hasBox, s) ← rdBool s
  let (box, s) ← if hasBox then rdBytes 24 s else some (([] : List Nat), s)
  let (rowPitch, s) ← rdU32 s
  let (slicePitch, s) ← rdU32 s
  let (size, s) ← rdU64 s
  let (data, s) ← rdBytes size s
  if data = [] ∨ resLive handle = 0 then
    return ([], s)
  else
    return ([DevCall.updateTextureRegion (resLive handle) subresource hasBox box
      rowPitch slicePitch data], s)

/-- descriptor_type numerals from the external reshade.hpp enum: sampler 0,
sampler_with_resource_view 1, shader_resource_view 2, unordered_access_view
3, constant_buffer 6, shader_storage_buffer 7. Width in 64-bit words of one
descriptor element of each type, per the switch shared by recorder and
replayer. -/
def descriptorWidth : Nat → Nat
  | 0 => 1
  | 2 => 1
  | 3 => 1
  | 7 => 1
  | 1 => 2
  | 6 => 3
  | _ => 0

/-- One descriptor_table_update of an update_descriptor_tables event as
captured: fixed fields plus the origin descriptor payload as 64-bit words. -/
structure DescriptorUpdate where
  table : Nat
  binding : Nat
  arrayOffset : Nat
  count : Nat
  dtype : Nat
  descriptors : List Nat
  deriving DecidableEq

/-- Bytes on_update_descriptor_tables writes for the update at index i of
the event: the fixed fields, then a single descriptor element of
descriptorWidth words taken at word offset i * descriptorWidth of the
descriptor array of this update (the source indexes the element by the
update index i, not by a descriptor index, and writes exactly one element
regardless of count). -/
def encodeDescriptorTableUpdate (i : Nat) (u : DescriptorUpdate) : List Nat :=
  wU64 u.table ++ wU32 u.binding ++ wU32 u.arrayOffset ++ wU32 u.count ++ wU32 u.dtype ++
    (((u.descriptors.drop (i * descriptorWidth u.dtype)).take (descriptorWidth u.dtype)).map
      wU64).flatten

/-- Bytes on_update_descriptor_tables writes for a whole event: the update
count, then each update in order. -/
def encodeUpdateDescriptorTables (updates : List DescriptorUpdate) : List Nat :=
  wU32 updates.length ++
    (updates.enum.map fun p => encodeDescriptorTableUpdate p.1 p.2).flatten

/-- Replay-side handle registries as the replayer reads them with the
operator-bracket default of 0 for absent keys. -/
structure Registries where
  samplers : Nat → Nat
  views : Nat → Nat
  resources : Nat → Nat
  tables : Nat → Nat

/-- One update as play_update_descriptor_sets reconstructs it, descriptor
handles already remapped to live handles. -/
structure DecodedUpdate where
  table : Nat
  binding : Nat
  arrayOffset : Nat
  count : Nat
  dtype : Nat
  descriptors : List Nat
  deriving DecidableEq

/-- play_update_descriptor_sets remapping of one descriptor element: reads
descriptorWidth words and remaps the embedded origin handles per descriptor
type (sampler handle, resource view handle, or the constant buffer composite
of resource handle plus verbatim offset and size). -/
def readDescriptorElem (regs : Registries) (dtype : Nat) (s : List Nat) :
    Option (List Nat × List Nat) :=
  match dtype with
  | 0 => do
    let (h0, s) ← rdU64 s
    return ([regs.samplers h0], s)
  | 2 => do
    let (h0, s) ← rdU64 s
    return ([regs.views h0], s)
  | 3 => do
    let (h0, s) ← rdU64 s
    return ([regs.views h0], s)
  | 7 => do
    let (h0, s) ← rdU64 s
    return ([regs.views h0], s)
  | 1 => do
    let (h0, s) ← rdU64 s
    let (h1, s) ← rdU64 s
    return ([regs.samplers h0, regs.views h1], s)
  | 6 => do
    let (h0, s) ← rdU64 s
    let (h1, s) ← rdU64 s
    let (h2, s) ← rdU64 s
    return ([regs.resources h0, h1, h2], s)
  | _ => some ([], s)

/-- The k-iteration descriptor loop of play_update_descriptor_sets: one
element per descriptor up to count. -/
def readDescriptorElems (regs : Registries) (dtype : Nat) :
    Nat → List Nat → Option (List Nat × List Nat)
  | 0, s => some ([], s)
  | k + 1, s => do
    let (ws, s) ← readDescriptorElem regs dtype s
    let (rest, s) ← readDescriptorElems regs dtype k s
    return (ws ++ rest, s)

/-- play_update_descriptor_sets decode of one update: fixed fields, then
count descriptor elements. -/
def decodeDescriptorTableUpdate (regs : Registries) (s : List Nat) :
    Option (DecodedUpdate × List Nat) := do
  let (table, s) ← rdU64 s
  let (binding, s) ← rdU32 s
  let (arrayOffset, s) ← rdU32 s
  let (count, s) ← rdU32 s
  let (dtype, s) ← rdU32 s
  let (descs, s) ← readDescriptorElems regs dtype count s
  return (DecodedUpdate.mk (regs.tables table) binding arrayOffset count dtype descs, s)

/-- The outer update loop of play_update_descriptor_sets. -/
def decodeDescriptorTableUpdates (regs : Registries) :
    Nat → List Nat → Option (List DecodedUpdate × List Nat)
  | 0, s => some ([], s)
  | k + 1, s => do
    let (u, s) ← decodeDescriptorTableUpdate regs s
    let (us, s) ← decodeDescriptorTableUpdates regs k s
    return (u :: us, s)

/-- play_update_descriptor_sets: update count, then that many updates. -/
def decodeUpdateDescriptorTables (regs : Registries) (s : List Nat) :
    Option (List DecodedUpdate × List Nat) := do
  let (count, s) ← rdU32 s
  decodeDescriptorTableUpdates regs count s

/-- Object categories with an origin-to-live handle map in the replayer. -/
inductive ObjCat where
  | sampler
  | resource
  | resourceView
  | pipeline
  | pipelineLayout
  deriving DecidableEq

/-- One replayed lifecycle event referencing an origin handle; init carries
the live handle the device creation call produces. -/
inductive LifeEvent where
  | init (cat : ObjCat) (origin live : Nat)
  | destroy (cat : ObjCat) (origin : Nat)
  deriving DecidableEq

/-- The category-keyed origin-to-live maps (s_samplers, s_resources,
s_resource_views, s_pipelines, s_pipeline_layouts); none models an origin
handle no event has touched yet. -/
def Registry : Type := ObjCat → Nat → Option Nat

/-- Registry lookup as every replay handler performs it: the map
operator-bracket yields the default (null) live handle 0 for absent keys. -/
def lookupLive (st : Registry) (cat : ObjCat) (h : Nat) : Nat := (st cat h).getD 0

/-- Store a live handle for an origin handle in one category. -/
def setLive (st : Registry) (cat : ObjCat) (h v : Nat) : Registry :=
  fun c x => if c = cat ∧ x = h then some v else st c x

/-- Registry effect of one lifecycle event, per the play_init_* and
play_destroy_* handlers: init stores the live handle the creation call
produced (or the origin handle itself for the OpenGL default-framebuffer
sentinel, which the resource and resource-view handlers special-case);
destroy assigns the null handle (play_destroy_resource skips the sentinel). -/
def playLifeEvent (api : Nat) (st : Registry) : LifeEvent → Registry
  | LifeEvent.init cat h live =>
    if (cat = ObjCat.resource ∨ cat = ObjCat.resourceView) ∧ glDefaultFB api h = true then
      setLive st cat h h
    else
      setLive st cat h live
  | LifeEvent.destroy cat h =>
    if cat = ObjCat.resource ∧ glDefaultFB api h = true then
      st
    else
      setLive st cat h 0

/-- Replay of a sequence of lifecycle events, in stream order. -/
def playLifeEvents (api : Nat) (evs : List LifeEvent) (st : Registry) : Registry :=
  evs.foldl (playLifeEvent api) st

/-- The category and origin handle an event references. -/
def refsHandle : LifeEvent → ObjCat × Nat
  | LifeEvent.init cat h _ => (cat, h)
  | LifeEvent.destroy cat h => (cat, h)

/-- Live calls play_init_sampler issues: it creates the new sampler into the
map slot directly; the source has no stale-mapping check and never destroys
a previously mapped sampler. The samplers map is passed to mirror the
handler having it in scope. -/
def playInitSamplerCalls (_samplers : Nat → Option Nat) (desc h : Nat) : List DevCall :=
  let _ := h
  [DevCall.createSampler desc]

/-- Live calls play_init_resource issues: nothing for the OpenGL
default-framebuffer sentinel; otherwise a destroy of the stale live resource
when the origin handle is already mapped, then the creation call. -/
def playInitResourceCalls (api : Nat) (resources : Nat → Option Nat)
    (desc : ResourceDesc) (h : Nat) : List DevCall :=
  if glDefaultFB api h then []
  else
    (if (resources h).isSome then [DevCall.destroyResource ((resources h).getD 0)] else []) ++
      [DevCall.createResource desc]

/-- Live calls play_init_resource_view issues, mirroring
playInitResourceCalls. -/
def playInitResourceViewCalls (api : Nat) (views : Nat → Option Nat)
    (resLive usage h : Nat) : List DevCall :=
  if glDefaultFB api h then []
  else
    (if (views h).isSome then [DevCall.destroyResourceView ((views h).getD 0)] else []) ++
      [DevCall.createResourceView resLive usage]

/-- Live calls play_init_pipeline issues: a destroy of the stale live
pipeline when the origin handle is already mapped, then the creation call. -/
def playInitPipelineCalls (pipelines : Nat → Option Nat) (layoutLive h : Nat) : List DevCall :=
  (if (pipelines h).isSome then [DevCall.destroyPipeline ((pipelines h).getD 0)] else []) ++
    [DevCall.createPipeline layoutLive]

/-- Live calls play_init_pipeline_layout issues: the creation call only; the
source has no stale-mapping check and never destroys a previously mapped
pipeline layout. -/
def playInitPipelineLayoutCalls (_layouts : Nat → Option Nat) (paramCount h : Nat) : List DevCall :=
  let _ := h
  [DevCall.createPipelineLayout paramCount]

/-- One event of the replay stream at dispatch granularity: present is the
frame boundary; other stands for any other recognized tag whose handler has
consumed the event payload. -/
inductive TraceEvent where
  | present
  | other (tag : Nat)
  deriving DecidableEq

/-- The play_frame dispatch loop: one event at a time in stream order,
returning true as soon as the present tag is read (leaving the rest of the
stream unconsumed) and false when the read of the next tag fails at the end
of the stream. -/
def playFrame : List TraceEvent → Bool × List TraceEvent
  | [] => (false, [])
  | TraceEvent.present :: rest => (true, rest)
  | TraceEvent.other _ :: rest => playFrame rest

/-- The UINT64_MAX whole-buffer sentinel. -/
def UINT64MAX : Nat := 2 ^ 64 - 1

/-- Size value on_map_buffer_region and on_update_buffer_region record: the
whole-buffer sentinel is replaced with the actual buffer size of the
resource before anything is written. -/
def recordedBufferSize (size bufferSize : Nat) : Nat :=
  if size = UINT64MAX then bufferSize else size

/-- Full payload on_map_buffer_region writes, sentinel replacement applied. -/
def recordMapBufferRegion (res offset size access bufferSize : Nat) : List Nat :=
  encodeMapBufferRegion res offset (recordedBufferSize size bufferSize) access

/-- Full payload on_update_buffer_region writes, sentinel replacement
applied. -/
def recordUpdateBufferRegion (res offset size bufferSize : Nat) (data : List Nat) : List Nat :=
  encodeUpdateBufferRegion res offset (recordedBufferSize size bufferSize) data

/-- Concrete registry samples for the closed evaluations below. -/
def sampleResLive : Nat → Nat := fun h => if h = 1 then 42 else 0

/-- Resource registry with no live mapping at all. -/
def deadResLive : Nat → Nat := fun _ => 0

/-- Optional-handle map with a stale live handle 77 registered at origin 5. -/
def stale5 : Nat → Option Nat := fun x => if x = 5 then some 77 else none

/-- Lifecycle registry with no mapping in any category. -/
def emptyRegistry : Registry := fun _ _ => none

/-- Replay registries with every lookup yielding the null handle. -/
def emptyRegistries : Registries :=
  { samplers := fun _ => 0, views := fun _ => 0, resources := fun _ => 0, tables := fun _ => 0 }

/-- A sampler-type descriptor update with two descriptors, used to evaluate
the recorder and replayer on one concrete update_descriptor_tables event. -/
def sampleUpdate : DescriptorUpdate :=
  { table := 1, binding := 0, arrayOffset := 0, count := 2, dtype := 0,
    descriptors := [11, 22] }

/-- A 3D texture description: two depth slices, one mip level. -/
def descTex3 : ResourceDesc :=
  { rtype := ResourceType.texture3d, bufferSize := 0,
    texture := { width := 4, height := 4, depthOrLayers := 2, levels := 1, format := 0 } }

/-- Mapped-memory record with slice pitch 100. -/
def subPitchA : SubresourceData := { dataBytes := [], rowPitch := 16, slicePitch := 100 }

/-- Mapped-memory record agreeing with subPitchA on everything except the
slice pitch. -/
def subPitchB : SubresourceData := { dataBytes := [], rowPitch := 16, slicePitch := 2 }

/-- Mapped-memory record agreeing with subPitchA on both pitches but with
different memory contents. -/
def subPitchC : SubresourceData := { dataBytes := [1, 2, 3], rowPitch := 16, slicePitch := 100 }

/-- A trivial stand-in for the external format_row_pitch helper. -/
def zeroRowPitch : Nat → Nat → Nat := fun _ _ => 0

/-- A trivial stand-in for the external format_slice_pitch helper. -/
def zeroSlicePitch : Nat → Nat → Nat → Nat := fun _ _ _ => 0

theorem rdBytes_append : ∀ (a r : List Nat), rdBytes a.length (a ++ r) = some (a, r)
  | [], _ => rfl
  | x :: a, r => by simp [rdBytes, rdBytes_append a r]

theorem leBytes_length : ∀ (k v : Nat), (leBytes k v).length = k
  | 0, _ => rfl
  | k + 1, v => by simp [leBytes, leBytes_length k]

theorem fromLE_leBytes (k v : Nat) : fromLE (leBytes k v) = v % 256 ^ k := by
  induction k generalizing v with
  | zero => simp [leBytes, fromLE, Nat.mod_one]
  | succ k ih =>
    rw [leBytes, fromLE, ih, pow_succ, mul_comm (256 ^ k) 256, Nat.mod_mul]

theorem rdBytes_of_length {n : Nat} (a : List Nat) (h : a.length = n) (r : List Nat) :
    rdBytes n (a ++ r) = some (a, r) := h ▸ rdBytes_append a r

theorem rdU64_append (v : Nat) (h : v < 2 ^ 64) (r : List Nat) :
    rdU64 (wU64 v ++ r) = some (v, r) := by
  have h8 : (256 : Nat) ^ 8 = 2 ^ 64 := by norm_num
  simp [rdU64, wU64, rdBytes_of_length _ (leBytes_length 8 v) r, fromLE_leBytes, h8,
    Nat.mod_eq_of_lt h]
  omega

theorem rdU32_append (v : Nat) (h : v < 2 ^ 32) (r : List Nat) :
    rdU32 (wU32 v ++ r) = some (v, r) := by
  have h4 : (256 : Nat) ^ 4 = 2 ^ 32 := by norm_num
  simp [rdU32, wU32, rdBytes_of_length _ (leBytes_length 4 v) r, fromLE_leBytes, h4,
    Nat.mod_eq_of_lt h]
  omega

theorem rdU8_append (v : Nat) (h : v < 2 ^ 8) (r : List Nat) :
    rdU8 (wU8 v ++ r) = some (v, r) := by
  have h1 : (256 : Nat) ^ 1 = 2 ^ 8 := by norm_num
  simp [rdU8, wU8, rdBytes_of_length _ (leBytes_length 1 v) r, fromLE_leBytes, h1,
    Nat.mod_eq_of_lt h]
  omega

theorem rdBool_append (b : Bool) (r : List Nat) :
    rdBool (wBool b ++ r) = some (b, r) := by
  cases b <;> simp [rdBool, wBool, rdBytes, fromLE]

theorem setLive_ne (st : Registry) (c0 : ObjCat) (h0 v : Nat) (cat : ObjCat) (h : Nat)
    (hne : ¬(cat = c0 ∧ h = h0)) : setLive st c0 h0 v cat h = st cat h := by
  simp [setLive, hne]

theorem playLifeEvent_preserves (api : Nat) (st : Registry) (e : LifeEvent) (cat : ObjCat)
    (h : Nat) (hne : refsHandle e ≠ (cat, h)) : playLifeEvent api st e cat h = st cat h := by
  cases e with
  | init c o live =>
    have hne2 : ¬(cat = c ∧ h = o) := by
      rintro ⟨h1, h2⟩
      exact hne (by simp [refsHandle, h1, h2])
    simp only [playLifeEvent]
    split
    · exact setLive_ne st c o o cat h hne2
    · exact setLive_ne st c o live cat h hne2
  | destroy c o =>
    have hne2 : ¬(cat = c ∧ h = o) := by
      rintro ⟨h1, h2⟩
      exact hne (by simp [refsHandle, h1, h2])
    simp only [playLifeEvent]
    split
    · rfl
    · exact setLive_ne st c o 0 cat h hne2

theorem playLifeEvents_preserves (api : Nat) (cat : ObjCat) (h : Nat) :
    ∀ (evs : List LifeEvent) (st : Registry), (∀ e ∈ evs, refsHandle e ≠ (cat, h)) →
      playLifeEvents api evs st cat h = st cat h
  | [], _, _ => rfl
  | e :: evs, st, hall => by
    have h1 : playLifeEvents api (e :: evs) st =
        playLifeEvents api evs (playLifeEvent api st e) := rfl
    rw [h1, playLifeEvents_preserves api cat h evs _ fun x hx => hall x (List.mem_cons_of_mem e hx)]
    exact playLifeEvent_preserves api st e cat h (hall e (List.mem_cons_self e evs))

theorem playFrame_skip : ∀ (pre : List TraceEvent), TraceEvent.present ∉ pre →
    ∀ (rest : List TraceEvent), playFrame (pre ++ rest) = playFrame rest
  | [], _, _ => rfl
  | TraceEvent.present :: _, hp, _ => absurd (List.mem_cons_self _ _) hp
  | TraceEvent.other t :: pre, hp, rest => by
    have : playFrame ((TraceEvent.other t :: pre) ++ rest) = playFrame (pre ++ rest) := rfl
    rw [this, playFrame_skip pre (fun hm => hp (List.mem_cons_of_mem _ hm)) rest]

theorem playFrame_no_present : ∀ (s : List TraceEvent), TraceEvent.present ∉ s →
    playFrame s = (false, [])
  | [], _ => rfl
  | TraceEvent.present :: _, hp => absurd (List.mem_cons_self _ _) hp
  | TraceEvent.other t :: s, hp => by
    have : playFrame (TraceEvent.other t :: s) = playFrame s := rfl
    rw [this, playFrame_no_present s fun hm => hp (List.mem_cons_of_mem _ hm)]

/-- C3: the claim asserts that each update of an update_descriptor_tables
event is recorded as its fixed fields followed by count descriptor elements
taken from the start of the descriptor array of that update, which the
replayer then consumes. Evaluating both sides on one event holding a single
sampler-type update with count 2 refutes the recorder half: the recorder
writes exactly one descriptor element (at the word offset given by the
update index, not the start), producing a 36-byte event, while the replayer
reads count = 2 elements and runs off the end of the event. -/
theorem update_descriptor_tables_recorder_desync :
    (encodeUpdateDescriptorTables [sampleUpdate]).length = 36 ∧
    decodeUpdateDescriptorTables emptyRegistries
      (encodeUpdateDescriptorTables [sampleUpdate]) = none := by
  constructor
  · rfl
  · rfl

/-- C5 counterexample: calc_texture_size is not a function of
{format, dimensions, level, box} alone; two invocations agreeing on all of
those but differing in the slice pitch of the subresource_data argument
return different byte counts for a 3D texture. -/
theorem calc_texture_size_pitch_dependence :
    calcTextureSize zeroRowPitch zeroSlicePitch descTex3 0 subPitchA none ≠
      calcTextureSize zeroRowPitch zeroSlicePitch descTex3 0 subPitchB none := by
  decide

/-- C5 (amended): calc_texture_size is deterministic in {format, dimensions,
level, box} together with the row and slice pitches of the subresource_data
argument: two invocations agreeing on those return identical byte counts,
whatever the mapped memory contents are and for every implementation of the
external pitch helpers. -/
theorem calc_texture_size_determinism (frp : Nat → Nat → Nat) (fsp : Nat → Nat → Nat → Nat)
    (desc : ResourceDesc) (subresource : Nat) (d1 d2 : SubresourceData)
    (box : Option SubresourceBox)
    (hrow : d1.rowPitch = d2.rowPitch) (hslice : d1.slicePitch = d2.slicePitch) :
    calcTextureSize frp fsp desc subresource d1 box =
      calcTextureSize frp fsp desc subresource d2 box := by
  rcases desc with ⟨t, bs, tex⟩
  cases t <;> simp [calcTextureSize, hrow, hslice]

theorem calc_texture_size_determinism_witness :
    calcTextureSize zeroRowPitch zeroSlicePitch descTex3 0 subPitchA none =
      calcTextureSize zeroRowPitch zeroSlicePitch descTex3 0 subPitchC none :=
  calc_texture_size_determinism zeroRowPitch zeroSlicePitch descTex3 0 subPitchA subPitchC
    none rfl rfl

/-- C6: replaying a create event for an origin handle registers the live
handle the creation call produced, any sequence of lifecycle events not
referencing that origin handle preserves the mapping, and the destroy event
leaves the empty mapping, whose lookup yields the null live handle; the
OpenGL default-framebuffer sentinel, which the handlers special-case, is
excluded. -/
theorem handle_lifecycle (api : Nat) (cat : ObjCat) (h live : Nat) (st : Registry)
    (evs : List LifeEvent) (hsent : glDefaultFB api h = false)
    (hrefs : ∀ e ∈ evs, refsHandle e ≠ (cat, h)) :
    lookupLive (playLifeEvents api evs
      (playLifeEvent api st (LifeEvent.init cat h live))) cat h = live ∧
    lookupLive (playLifeEvent api st (LifeEvent.destroy cat h)) cat h = 0 := by
  constructor
  · rw [lookupLive, playLifeEvents_preserves api cat h evs _ hrefs]
    simp [playLifeEvent, hsent, setLive]
  · simp [lookupLive, playLifeEvent, hsent, setLive]

theorem handle_lifecycle_witness :
    lookupLive (playLifeEvents 0xc000 [LifeEvent.init ObjCat.resource 6 11]
      (playLifeEvent 0xc000 emptyRegistry (LifeEvent.init ObjCat.sampler 5 77)))
      ObjCat.sampler 5 = 77 ∧
    lookupLive (playLifeEvent 0xc000 emptyRegistry (LifeEvent.destroy ObjCat.sampler 5))
      ObjCat.sampler 5 = 0 :=
  handle_lifecycle 0xc000 ObjCat.sampler 5 77 emptyRegistry
    [LifeEvent.init ObjCat.resource 6 11] (by decide) (by decide)

/-- C8 counterexample: the claim asserts that every lifecycle init event
category destroys the stale live object first when the origin handle is
already mapped. For the sampler category this fails: with origin handle 5
mapped to stale live handle 77, play_init_sampler issues only the creation
call and no destroy call at all. -/
theorem init_sampler_stale_not_destroyed :
    (stale5 5).isSome = true ∧
    playInitSamplerCalls stale5 3 5 = [DevCall.createSampler 3] ∧
    DevCall.destroySampler 77 ∉ playInitSamplerCalls stale5 3 5 := by
  decide

/-- C8 (amended): only the resource, resource view and pipeline init
handlers destroy the stale live object before creating the new one when the
origin handle already has a live mapping; the sampler and pipeline layout
init handlers create the new object without destroying the stale one. -/
theorem init_stale_destroy_per_category (api : Nat)
    (samplers resources views pipelines layouts : Nat → Option Nat)
    (desc : ResourceDesc) (descN h vres vview vpip resLive usage layoutLive paramCount : Nat)
    (hsent : glDefaultFB api h = false)
    (hres : resources h = some vres) (hview : views h = some vview)
    (hpip : pipelines h = some vpip) :
    playInitResourceCalls api resources desc h =
      [DevCall.destroyResource vres, DevCall.createResource desc] ∧
    playInitResourceViewCalls api views resLive usage h =
      [DevCall.destroyResourceView vview, DevCall.createResourceView resLive usage] ∧
    playInitPipelineCalls pipelines layoutLive h =
      [DevCall.destroyPipeline vpip, DevCall.createPipeline layoutLive] ∧
    playInitSamplerCalls samplers descN h = [DevCall.createSampler descN] ∧
    playInitPipelineLayoutCalls layouts paramCount h =
      [DevCall.createPipelineLayout paramCount] := by
  refine ⟨?_, ?_, ?_, rfl, rfl⟩ <;>
    simp [playInitResourceCalls, playInitResourceViewCalls, playInitPipelineCalls,
      hsent, hres, hview, hpip]

theorem init_stale_destroy_per_category_witness :
    playInitResourceCalls 0xc000 stale5 descTex3 5 =
      [DevCall.destroyResource 77, DevCall.createResource descTex3] ∧
    playInitResourceViewCalls 0xc000 stale5 9 4 5 =
      [DevCall.destroyResourceView 77, DevCall.createResourceView 9 4] ∧
    playInitPipelineCalls stale5 8 5 =
      [DevCall.destroyPipeline 77, DevCall.createPipeline 8] ∧
    playInitSamplerCalls stale5 3 5 = [DevCall.createSampler 3] ∧
    playInitPipelineLayoutCalls stale5 2 5 = [DevCall.createPipelineLayout 2] :=
  init_stale_destroy_per_category 0xc000 stale5 stale5 stale5 stale5 stale5 descTex3
    3 5 77 77 77 9 4 8 2 (by decide) (by decide) (by decide) (by decide)

/-- C9: within one play_frame invocation events are consumed strictly
sequentially: the first present tag makes play_frame return true at once and
leaves everything after it unconsumed for the next invocation, and a stream
with no present tag makes the read loop run to the failed read at the end of
the stream and return false with nothing left, with no resync attempt. -/
theorem play_frame_boundary (pre post s : List TraceEvent)
    (hpre : TraceEvent.present ∉ pre) (hs : TraceEvent.present ∉ s) :
    playFrame (pre ++ TraceEvent.present :: post) = (true, post) ∧
    playFrame s = (false, []) := by
  constructor
  · rw [playFrame_skip pre hpre]
    rfl
  · exact playFrame_no_present s hs

theorem play_frame_boundary_witness :
    playFrame ([TraceEvent.other 3] ++ TraceEvent.present :: [TraceEvent.present]) =
      (true, [TraceEvent.present]) ∧
    playFrame [TraceEvent.other 1, TraceEvent.other 2] = (false, []) :=
  play_frame_boundary [TraceEvent.other 3] [TraceEvent.present]
    [TraceEvent.other 1, TraceEvent.other 2] (by decide) (by decide)

/-- C10: the recorder replaces the whole-buffer sentinel size UINT64_MAX
with the actual buffer size before writing a map_buffer_region or
update_buffer_region event, so as long as the buffer size itself is not the
sentinel, the recorded size field never contains the sentinel, and both
recorded payloads embed the replaced concrete size. -/
theorem sentinel_buffer_size_replaced (res offset size access bufferSize : Nat)
    (data : List Nat) (hb : bufferSize ≠ UINT64MAX) :
    recordedBufferSize UINT64MAX bufferSize = bufferSize ∧
    recordedBufferSize size bufferSize ≠ UINT64MAX ∧
    recordMapBufferRegion res offset size access bufferSize =
      encodeMapBufferRegion res offset (recordedBufferSize size bufferSize) access ∧
    recordUpdateBufferRegion res offset size bufferSize data =
      encodeUpdateBufferRegion res offset (recordedBufferSize size bufferSize) data := by
  refine ⟨by simp [recordedBufferSize], ?_, rfl, rfl⟩
  by_cases hc : size = UINT64MAX <;> simp [recordedBufferSize, hc, hb]

theorem sentinel_buffer_size_replaced_witness :
    recordedBufferSize UINT64MAX 64 = 64 ∧
    recordedBufferSize UINT64MAX 64 ≠ UINT64MAX ∧
    recordMapBufferRegion 1 0 UINT64MAX 2 64 =
      encodeMapBufferRegion 1 0 (recordedBufferSize UINT64MAX 64) 2 ∧
    recordUpdateBufferRegion 1 0 UINT64MAX 64 [9, 8] =
      encodeUpdateBufferRegion 1 0 (recordedBufferSize UINT64MAX 64) [9, 8] :=
  sentinel_buffer_size_replaced 1 0 UINT64MAX 2 64 [9, 8] (by decide)

/-- C1: the claim asserts that for every event kind the replayer consumes
exactly the bytes the recorder wrote, field for field, and in particular
that clear_depth_stencil_view round-trips. Evaluating both sides at a
concrete event refutes this for clear_depth_stencil_view: the recorder
writes 13 bytes (handle, raw float, stencil byte, no presence flags), while
the replayer expects has_depth and has_stencil flag bytes. On the recorded
bytes for depth 1.0f (float bytes 0,0,128,63) and stencil 7 it consumes only
10 bytes, misreads both flags as absent, and leaves 3 stale bytes in the
stream, desynchronizing it. -/
theorem clear_depth_stencil_view_recorder_replayer_desync :
    (encodeClearDepthStencilView 5 [0, 0, 128, 63] 7).length = 13 ∧
    decodeClearDepthStencilView (encodeClearDepthStencilView 5 [0, 0, 128, 63] 7) =
      some ({ dsv := 5, depth := none, stencil := none }, [128, 63, 7]) := by
  constructor
  · rfl
  · rfl

/-- C2: replaying a map_buffer_region event consumes its four fields and
issues no live call, and replaying the matching unmap_buffer_region event
with a non-read-only access and payload bytes B performs exactly one live
map of the remapped resource, one copy of exactly B into the mapped region
and one live unmap, in that order, with no other live call in between. -/
theorem map_unmap_collapse (res offset access : Nat) (B rest : List Nat)
    (resLive : Nat → Nat) (hres : res < 2 ^ 64) (hoff : offset < 2 ^ 64)
    (hlen : B.length < 2 ^ 64) (hacc : access < 2 ^ 32)
    (haccro : access ≠ mapAccessReadOnly) (hlive : resLive res ≠ 0) :
    playMapBufferRegion (encodeMapBufferRegion res offset B.length access ++ rest) =
      some ([], rest) ∧
    playUnmapBufferRegion resLive true
        (encodeUnmapBufferRegion res offset B.length access B ++ rest) =
      some ([DevCall.mapBufferRegion (resLive res) offset B.length access,
        DevCall.writeMappedBytes B,
        DevCall.unmapBufferRegion (resLive res)], rest) := by
  constructor
  · simp [playMapBufferRegion, encodeMapBufferRegion, List.append_assoc,
      rdU64_append res hres, rdU64_append offset hoff, rdU64_append B.length hlen,
      rdU32_append access hacc]
  · simp [playUnmapBufferRegion, encodeUnmapBufferRegion, List.append_assoc,
      rdU64_append res hres, rdU64_append offset hoff, rdU64_append B.length hlen,
      rdU32_append access hacc, rdBytes_append, haccro, hlive]

theorem map_unmap_collapse_witness :
    playMapBufferRegion (encodeMapBufferRegion 1 0 2 2 ++ []) = some ([], []) ∧
    playUnmapBufferRegion sampleResLive true
        (encodeUnmapBufferRegion 1 0 2 2 [9, 8] ++ []) =
      some ([DevCall.mapBufferRegion 42 0 2 2, DevCall.writeMappedBytes [9, 8],
        DevCall.unmapBufferRegion 42], []) :=
  map_unmap_collapse 1 0 2 [9, 8] [] sampleResLive (by decide) (by decide) (by decide)
    (by decide) (by decide) (by decide)

/-- C7: when the origin handle of an unmap_buffer_region or
update_buffer_region event has no live mapping, the registry lookup yields
the null live handle, the payload bytes of the event are still fully
consumed from the stream, and the live side effect is skipped, so playback
continues at the next event. -/
theorem unresolved_handle_tolerated (res offset access : Nat) (B rest : List Nat)
    (resLive : Nat → Nat) (mapOk : Bool) (hres : res < 2 ^ 64) (hoff : offset < 2 ^ 64)
    (hlen : B.length < 2 ^ 64) (hacc : access < 2 ^ 32)
    (haccro : access ≠ mapAccessReadOnly) (hdead : resLive res = 0) :
    playUnmapBufferRegion resLive mapOk
        (encodeUnmapBufferRegion res offset B.length access B ++ rest) =
      some ([], rest) ∧
    playUpdateBufferRegion resLive
        (encodeUpdateBufferRegion res offset B.length B ++ rest) =
      some ([], rest) := by
  constructor
  · simp [playUnmapBufferRegion, encodeUnmapBufferRegion, List.append_assoc,
      rdU64_append res hres, rdU64_append offset hoff, rdU64_append B.length hlen,
      rdU32_append access hacc, rdBytes_append, haccro, hdead]
  · simp [playUpdateBufferRegion, encodeUpdateBufferRegion, List.append_assoc,
      rdU64_append res hres, rdU64_append offset hoff, rdU64_append B.length hlen,
      rdBytes_append, hdead]

theorem unresolved_handle_tolerated_witness :
    playUnmapBufferRegion deadResLive true
        (encodeUnmapBufferRegion 1 0 2 2 [9, 8] ++ [5]) = some ([], [5]) ∧
    playUpdateBufferRegion deadResLive
        (encodeUpdateBufferRegion 1 0 2 [9, 8] ++ [5]) = some ([], [5]) :=
  unresolved_handle_tolerated 1 0 2 [9, 8] [5] deadResLive true (by decide) (by decide)
    (by decide) (by decide) (by decide) (by decide)

/-- C4 counterexample: the claim asserts that the replayer recomputes the
texture payload byte count with calc_texture_size instead of taking it from
the size value stored in the stream. On an unmap_texture_region event whose
stored size field is 5 while calc_texture_size for the traced texture
(3D, two depth slices, slice pitch 2) yields 4, the replayer consumes
exactly 5 payload bytes, following the stored field and leaving precisely
the one trailing marker byte. -/
theorem texture_payload_size_counterexample :
    calcTextureSize zeroRowPitch zeroSlicePitch descTex3 0 subPitchB none = 4 ∧
    playUnmapTextureRegion sampleResLive true
        (encodeUnmapTextureRegion 1 0 false [] 2 5 [1, 2, 3, 4, 5] ++ [99]) =
      some ([DevCall.mapTextureRegion 42 0 false [] 2,
        DevCall.writeMappedBytes [1, 2, 3, 4, 5],
        DevCall.unmapTextureRegion 42 0], [99]) := by
  constructor
  · rfl
  · rfl

set_option maxHeartbeats 1000000 in
/-- C4 (amended): the number of texture payload bytes the replayer consumes
for unmap_texture_region and update_texture_region events is the 64-bit size
value stored in the stream, which the recorder computed with
calc_texture_size at capture time; the replayer does not recompute
calc_texture_size. For a well-formed event, whose payload length equals that
calc_texture_size value, the replayer therefore consumes exactly the
recorded payload and stops at the event boundary. -/
theorem texture_payload_size_from_stream (frp : Nat → Nat → Nat)
    (fsp : Nat → Nat → Nat → Nat) (desc : ResourceDesc) (res subresource access : Nat)
    (d : SubresourceData) (hasBox : Bool) (box : List Nat) (boxOpt : Option SubresourceBox)
    (data rest : List Nat) (resLive : Nat → Nat)
    (hres : res < 2 ^ 64) (hsub : subresource < 2 ^ 32) (hacc : access < 2 ^ 32)
    (hrow : d.rowPitch < 2 ^ 32) (hslice : d.slicePitch < 2 ^ 32)
    (hbox : box.length = 24) (haccro : access ≠ mapAccessReadOnly)
    (hlive : resLive res ≠ 0) (hlen : data.length < 2 ^ 64) (hdata : data ≠ [])
    (hsize : data.length = calcTextureSize frp fsp desc subresource d boxOpt) :
    playUnmapTextureRegion resLive true
        (encodeUnmapTextureRegion res subresource hasBox box access data.length data ++
          rest) =
      some ([DevCall.mapTextureRegion (resLive res) subresource hasBox
          (if hasBox then box else []) access,
        DevCall.writeMappedBytes data,
        DevCall.unmapTextureRegion (resLive res) subresource], rest) ∧
    playUpdateTextureRegion resLive
        (encodeUpdateTextureRegion res subresource hasBox box d.rowPitch d.slicePitch
          data.length data ++ rest) =
      some ([DevCall.updateTextureRegion (resLive res) subresource hasBox
        (if hasBox then box else []) d.rowPitch d.slicePitch data], rest) := by
  have hbox24 : rdBytes 24 (box ++ (wU32 access ++ (wU64 data.length ++ (data ++ rest)))) =
      some (box, wU32 access ++ (wU64 data.length ++ (data ++ rest))) :=
    rdBytes_of_length box hbox _
  have hbox24u : rdBytes 24
      (box ++ (wU32 d.rowPitch ++ (wU32 d.slicePitch ++ (wU64 data.length ++ (data ++ rest))))) =
      some (box, wU32 d.rowPitch ++ (wU32 d.slicePitch ++ (wU64 data.length ++ (data ++ rest)))) :=
    rdBytes_of_length box hbox _
  cases hasBox with
  | false =>
    constructor
    · simp [playUnmapTextureRegion, encodeUnmapTextureRegion, List.append_assoc,
        rdU64_append res hres, rdU32_append subresource hsub, rdBool_append,
        rdU32_append access hacc, rdU64_append data.length hlen, rdBytes_append,
        haccro, hlive]
    · simp [playUpdateTextureRegion, encodeUpdateTextureRegion, List.append_assoc,
        rdU64_append res hres, rdU32_append subresource hsub, rdBool_append,
        rdU32_append d.rowPitch hrow, rdU32_append d.slicePitch hslice,
        rdU64_append data.length hlen, rdBytes_append, hlive, hdata]
  | true =>
    constructor
    · simp [playUnmapTextureRegion, encodeUnmapTextureRegion, List.append_assoc,
        rdU64_append res hres, rdU32_append subresource hsub, rdBool_append,
        rdU32_append access hacc, rdU64_append data.length hlen, rdBytes_append,
        hbox24, haccro, hlive]
    · simp [playUpdateTextureRegion, encodeUpdateTextureRegion, List.append_assoc,
        rdU64_append res hres, rdU32_append subresource hsub, rdBool_append,
        rdU32_append d.rowPitch hrow, rdU32_append d.slicePitch hslice,
        rdU64_append data.length hlen, rdBytes_append, hbox24u, hlive, hdata]

theorem texture_payload_size_from_stream_witness :
    playUnmapTextureRegion sampleResLive true
        (encodeUnmapTextureRegion 1 0 false [] 2 4 [1, 2, 3, 4] ++ [99]) =
      some ([DevCall.mapTextureRegion 42 0 false [] 2,
        DevCall.writeMappedBytes [1, 2, 3, 4],
        DevCall.unmapTextureRegion 42 0], [99]) ∧
    playUpdateTextureRegion sampleResLive
        (encodeUpdateTextureRegion 1 0 false [] 16 2 4 [1, 2, 3, 4] ++ [99]) =
      some ([DevCall.updateTextureRegion 42 0 false [] 16 2 [1, 2, 3, 4]], [99]) :=
  texture_payload_size_from_stream zeroRowPitch zeroSlicePitch descTex3 1 0 2 subPitchB
    false [0, 0, 0, 0, 0, 0, 0, 0, 0, 0, 0, 0, 0, 0, 0, 0, 0, 0, 0, 0, 0, 0, 0, 0] none
    [1, 2, 3, 4] [99] sampleResLive (by decide) (by decide) (by decide) (by decide)
    (by decide) (by decide) (by decide) (by decide) (by decide) (by decide) (by decide)

end ApiTrace
